import Mathlib

/-!
Verification of the Java expression type checker
(`java_type_checker/expressions.py`).

The expression AST, `static_type`, `check_types` and `check_arguments` are
shallow embeddings of `expressions.py`.  The `Type` lattice collaborator
(`types.py`, imported by the source but not part of it) is modelled from the
spec's contract (§3, §6): nominal types with a name, a subtype relation, an
instantiability flag, method lookup failing with a "no such method" condition,
and a constructor signature.  Python exceptions are rendered as `Except`
values: `JavaTypeError` and the lattice's lookup failures are distinct
constructors of `JavaError`, and Python `AttributeError` (reading
`declared_type` off a non-`Variable` receiver) is a third constructor.
-/

namespace JavaTC

/-- Modelled from the spec: the Type lattice collaborator (`types.py` is not
part of the source under verification).  A nominal type carries a
human-readable `name`, the set of names of its supertypes (itself included,
so that the relation is reflexive), the `is_instantiable` flag, its method
signatures and an optional constructor signature (§3, §6 of the spec). -/
inductive JType : Type where
  | mk : String → List String → Bool → List (String × List JType × JType) →
      Option (List JType) → JType

/-- The human-readable name of the type (`Type.name`). -/
def JType.name : JType → String
  | .mk n _ _ _ _ => n

/-- The names of all supertypes of the type, itself included. -/
def JType.supers : JType → List String
  | .mk _ s _ _ _ => s

/-- The `is_instantiable` flag of the type. -/
def JType.is_instantiable : JType → Bool
  | .mk _ _ b _ _ => b

/-- The method signatures of the type: `(method name, argument_types, return_type)`. -/
def JType.methods : JType → List (String × List JType × JType)
  | .mk _ _ _ ms _ => ms

/-- The constructor signature of the type (its `argument_types`), when it has
one. -/
def JType.constructor_field : JType → Option (List JType)
  | .mk _ _ _ _ c => c

/-- Modelled from the spec: `is_subtype_of(other)` of the Type lattice.
With supertypes recorded by name, `t` is a subtype of `u` exactly when `u`'s
name is among `t`'s supertype names. -/
def JType.is_subtype_of (t u : JType) : Bool :=
  t.supers.contains u.name

/-- Modelled from the spec: `is_supertype_of(other)`, the consistent inverse
of `is_subtype_of` (§6). -/
def JType.is_supertype_of (t u : JType) : Bool :=
  u.is_subtype_of t

/-- Modelled from the spec: the distinguished singleton `Type.object`, the
root of the reference-type lattice. -/
def JType.object : JType :=
  .mk "Object" ["Object"] true [] none

/-- Modelled from the spec: the distinguished singleton `Type.null`, the type
of the null literal.  It is not a subtype of `Type.object` (§4.3 step 2
rejects calling methods on the null type). -/
def JType.null : JType :=
  .mk "null" ["null"] false [] none

/-- A method signature as consumed from the lattice: `argument_types` and
`return_type` (§6). -/
structure MethodSig where
  argument_types : List JType
  return_type : JType

/-- The failure conditions of the checker.  `typeError` is `JavaTypeError`
from `expressions.py`; `noSuchMethod` and `noSuchConstructor` are the Type
lattice's "no such member" lookup failures (distinct from the type-error
kind); `attributeError` is Python's `AttributeError`, raised when
`receiver.declared_type` is read off an expression with no such field. -/
inductive JavaError : Type where
  | typeError (message : String)
  | noSuchMethod (message : String)
  | noSuchConstructor (message : String)
  | attributeError (message : String)
deriving DecidableEq

/-- Modelled from the spec: `method_named(name)` of the Type lattice, failing
with a "no such method" condition if the type has no method of that name. -/
def JType.method_named (t : JType) (name : String) : Except JavaError MethodSig :=
  match t.methods.find? (fun m => m.1 == name) with
  | some m => .ok ⟨m.2.1, m.2.2⟩
  | none => .error (.noSuchMethod (t.name ++ " has no method named " ++ name))

/-- Modelled from the spec: the `constructor` property of the Type lattice,
failing with a "no such constructor" condition if the type has none (§7's
"no such member" covers constructor lookup failure). -/
def JType.constructor (t : JType) : Except JavaError (List JType) :=
  match t.constructor_field with
  | some c => .ok c
  | none => .error (.noSuchConstructor (t.name ++ " has no constructor"))

/-- The expression AST of `expressions.py`: `Variable`, `Literal`,
`NullLiteral` (a `Literal` whose `__init__` fixes the fields to
`("null", Type.null)`), `MethodCall` and `ConstructorCall`. -/
inductive Expression : Type where
  | variable (name : String) (declared_type : JType)
  | literal (value : String) (type : JType)
  | nullLiteral
  | methodCall (receiver : Expression) (method_name : String) (args : List Expression)
  | constructorCall (instantiated_type : JType) (args : List Expression)

/-- The stored `value` field of a `Literal` node.  `NullLiteral.__init__`
calls `super().__init__("null", Type.null)`, so its stored value is "null".
`none` for nodes that have no `value` field. -/
def Expression.value_field : Expression → Option String
  | .literal v _ => some v
  | .nullLiteral => some "null"
  | _ => none

/-- The stored `type` field of a `Literal` node; for `NullLiteral` it is
`Type.null` by its `__init__`.  `none` for nodes without the field. -/
def Expression.type_field : Expression → Option JType
  | .literal _ t => some t
  | .nullLiteral => some JType.null
  | _ => none

/-- The Python class name of a node, used in the `AttributeError` message. -/
def Expression.class_name : Expression → String
  | .variable _ _ => "Variable"
  | .literal _ _ => "Literal"
  | .nullLiteral => "NullLiteral"
  | .methodCall _ _ _ => "MethodCall"
  | .constructorCall _ _ => "ConstructorCall"

/-- Reading the `declared_type` attribute off an expression node, as
`MethodCall.static_type` does on its receiver.  Only `Variable` defines the
attribute; on any other node Python raises `AttributeError`. -/
def Expression.declared_type_attr : Expression → Except JavaError JType
  | .variable _ t => .ok t
  | e =>
    .error (.attributeError (e.class_name ++ " object has no attribute declared_type"))

/-- `static_type()` of each variant, from `expressions.py`:
`Variable` returns its declared type, `Literal` its stored type,
`NullLiteral` returns `Type.null`, `MethodCall` returns
`receiver.declared_type.method_named(method_name).return_type`
(reading the syntactic `declared_type` field, with no reference-type guard),
and `ConstructorCall` returns its `instantiated_type`. -/
def static_type : Expression → Except JavaError JType
  | .variable _ declared_type => .ok declared_type
  | .literal _ type => .ok type
  | .nullLiteral => .ok JType.null
  | .methodCall receiver method_name _ =>
    match receiver.declared_type_attr with
    | .error e => .error e
    | .ok dt =>
      match dt.method_named method_name with
      | .error e => .error e
      | .ok meth => .ok meth.return_type

  | .constructorCall instantiated_type _ => .ok instantiated_type

/-- The `names` helper of `expressions.py`: formats a list of types as
`"(A, B, C)"` for error messages. -/
def names (named_things : List JType) : String :=
  "(" ++ String.intercalate ", " (named_things.map JType.name) ++ ")"

/-- The pairwise loop of `check_arguments`: walks `zip(expected, actual)`
left to right and raises `JavaTypeError` on the first pair whose expected
type is not a supertype of the actual type; the message lists the full
`expected_types` and `actual_types` name sequences. -/
def check_argument_pairs : List (JType × JType) → List JType → List JType →
    String → Except JavaError Unit
  | [], _, _, _ => .ok ()
  | (expected_type, actual_type) :: rest, expected_types, actual_types, call_name =>
    if expected_type.is_supertype_of actual_type then
      check_argument_pairs rest expected_types actual_types call_name
    else
      .error (.typeError (call_name ++ " expects arguments of type " ++
        names expected_types ++ ", but got " ++ names actual_types))

/-- `check_arguments(expected_types, actual_types, call_name)` from
`expressions.py`: raises `JavaTypeError` on an arity mismatch, then checks
the pairs of `zip(expected_types, actual_types)` in order. -/
def check_arguments (expected_types actual_types : List JType)
    (call_name : String) : Except JavaError Unit :=
  if expected_types.length ≠ actual_types.length then
    .error (.typeError ("Wrong number of arguments for " ++ call_name ++
      ": expected " ++ toString expected_types.length ++
      ", got " ++ toString actual_types.length))
  else
    check_argument_pairs (expected_types.zip actual_types)
      expected_types actual_types call_name

/-- The `[arg.static_type() for arg in self.args]` comprehension: the static
types of the arguments, left to right, first failure aborts. -/
def static_type_list : List Expression → Except JavaError (List JType)
  | [] => .ok []
  | arg :: rest =>
    match static_type arg with
    | .error e => .error e
    | .ok t =>
      match static_type_list rest with
      | .error e => .error e
      | .ok ts => .ok (t :: ts)

mutual

/-- `check_types()` of each variant, from `expressions.py`.  `Variable`,
`Literal` and `NullLiteral` are no-ops.  `MethodCall` first checks every
argument, then computes the receiver's static type, rejects it if it is not
a subtype of `Type.object` ("does not have methods"), looks the method up on
it (a lookup failure propagates), and runs `check_arguments` with the call
label built from `self.receiver.static_type().name` and the method name.
`ConstructorCall` first checks every argument, rejects a non-instantiable
type ("is not instantiable"), then reads `instantiated_type.constructor`
and runs `check_arguments` with the `... constructor` call label. -/
def check_types : Expression → Except JavaError Unit
  | .variable _ _ => .ok ()
  | .literal _ _ => .ok ()
  | .nullLiteral => .ok ()
  | .methodCall receiver method_name args =>
    match check_types_list args with
    | .error e => .error e
    | .ok _ =>
      match static_type receiver with
      | .error e => .error e
      | .ok receiver_type =>
        if ¬ receiver_type.is_subtype_of JType.object then
          .error (.typeError ("Type " ++ receiver_type.name ++ " does not have methods"))
        else
          match receiver_type.method_named method_name with
          | .error e => .error e
          | .ok method =>
            match static_type_list args with
            | .error e => .error e
            | .ok actual_types =>
              match static_type receiver with
              | .error e => .error e
              | .ok receiver_type_again =>
                check_arguments method.argument_types actual_types
                  (receiver_type_again.name ++ "." ++ method_name ++ "()")
  | .constructorCall instantiated_type args =>
    match check_types_list args with
    | .error e => .error e
    | .ok _ =>
      if ¬ instantiated_type.is_instantiable then
        .error (.typeError ("Type " ++ instantiated_type.name ++ " is not instantiable"))
      else
        match instantiated_type.constructor with
        | .error e => .error e
        | .ok ctor_argument_types =>
          match static_type_list args with
          | .error e => .error e
          | .ok actual_types =>
            check_arguments ctor_argument_types actual_types
              (instantiated_type.name ++ " constructor")

/-- The `for arg in self.args: arg.check_types()` loop shared by
`MethodCall.check_types` and `ConstructorCall.check_types`: depth-first,
left to right, first failure aborts. -/
def check_types_list : List Expression → Except JavaError Unit
  | [] => .ok ()
  | arg :: rest =>
    match check_types arg with
    | .error e => .error e
    | .ok _ => check_types_list rest

end

mutual

/-- State-passing rendering of `check_types`: the node plays the role of
Python's `self`, and the call returns the node as it is left when the call
returns.  None of the `check_types` bodies in `expressions.py` assigns to
any attribute, so every branch rebuilds the node from its untouched fields
(the argument list from the recursive calls, the other fields as stored). -/
def check_types_st : Expression → Except JavaError (Unit × Expression)
  | .variable name declared_type => .ok ((), .variable name declared_type)
  | .literal value type => .ok ((), .literal value type)
  | .nullLiteral => .ok ((), .nullLiteral)
  | .methodCall receiver method_name args =>
    match check_types_st_list args with
    | .error e => .error e
    | .ok args₁ =>
      match static_type receiver with
      | .error e => .error e
      | .ok receiver_type =>
        if ¬ receiver_type.is_subtype_of JType.object then
          .error (.typeError ("Type " ++ receiver_type.name ++ " does not have methods"))
        else
          match receiver_type.method_named method_name with
          | .error e => .error e
          | .ok method =>
            match static_type_list args₁ with
            | .error e => .error e
            | .ok actual_types =>
              match static_type receiver with
              | .error e => .error e
              | .ok receiver_type_again =>
                match check_arguments method.argument_types actual_types
                    (receiver_type_again.name ++ "." ++ method_name ++ "()") with
                | .error e => .error e
                | .ok _ => .ok ((), .methodCall receiver method_name args₁)
  | .constructorCall instantiated_type args =>
    match check_types_st_list args with
    | .error e => .error e
    | .ok args₁ =>
      if ¬ instantiated_type.is_instantiable then
        .error (.typeError ("Type " ++ instantiated_type.name ++ " is not instantiable"))
      else
        match instantiated_type.constructor with
        | .error e => .error e
        | .ok ctor_argument_types =>
          match static_type_list args₁ with
          | .error e => .error e
          | .ok actual_types =>
            match check_arguments ctor_argument_types actual_types
                (instantiated_type.name ++ " constructor") with
            | .error e => .error e
            | .ok _ => .ok ((), .constructorCall instantiated_type args₁)

/-- State-passing rendering of the argument loop: returns the argument list
as left by the recursive `check_types` calls. -/
def check_types_st_list : List Expression → Except JavaError (List Expression)
  | [] => .ok []
  | arg :: rest =>
    match check_types_st arg with
    | .error e => .error e
    | .ok (_, arg₁) =>
      match check_types_st_list rest with
      | .error e => .error e
      | .ok rest₁ => .ok (arg₁ :: rest₁)

end

/-! ### Concrete fixtures

A small class universe used for witnesses and counterexamples:
`int` (a primitive: not a subtype of `Object`), class `B` with a method
`getX(): int`, class `A` with a method `getB(): B` and a constructor
expecting `(int, int)`, and the non-instantiable `Abstract`. -/

/-- The primitive type `int`: not a subtype of `Object`, no members. -/
def intT : JType := .mk "int" ["int"] true [] none

/-- Class `B`: a reference type with the method `getX(): int`. -/
def TB : JType := .mk "B" ["B", "Object"] true [("getX", [], intT)] none

/-- Class `A`: a reference type with the method `getB(): B` and a constructor
expecting `(int, int)`. -/
def TA : JType := .mk "A" ["A", "Object"] true [("getB", [], TB)] (some [intT, intT])

/-- `Abstract`: a reference type with `is_instantiable = false`. -/
def TAbstract : JType := .mk "Abstract" ["Abstract", "Object"] false [] none

/-- `p.getB("3")`: an ill-typed call (`getB` expects no arguments), whose own
static type nevertheless computes to `B`. -/
def recvBad : Expression := .methodCall (.variable "p" TA) "getB" [.literal "3" intT]

/-- `p.getB("3").getX()`: a call whose receiver subtree is ill-typed. -/
def outerOK : Expression := .methodCall recvBad "getX" []

/-- `new A("3")`: an ill-typed construction (the constructor expects two
arguments). -/
def ctorBadArity : Expression := .constructorCall TA [.literal "3" intT]

/-- `new Abstract(new A("3"))`: a construction of a non-instantiable type
whose argument is itself ill-typed. -/
def nonInstWithBadArg : Expression := .constructorCall TAbstract [ctorBadArity]

/-! ### Claim theorems -/

/-- C1: `MethodCall.static_type()` returns the return type of the method
found by looking `method_name` up on the receiver's syntactic
`declared_type` field — with no reference-type guard (no subtyping
hypothesis is needed) and without consulting the receiver's polymorphic
`static_type()`: when the receiver is itself a `MethodCall` (whose
polymorphic static type may well exist), the field read fails with
`AttributeError` instead. -/
theorem methodCall_static_type_uses_declared_type :
    (∀ (r : Expression) (m : String) (args : List Expression)
      (dt : JType) (meth : MethodSig),
      r.declared_type_attr = .ok dt →
      dt.method_named m = .ok meth →
      static_type (.methodCall r m args) = .ok meth.return_type) ∧
    (∀ (rr : Expression) (rm m : String) (rargs args : List Expression),
      static_type (.methodCall (.methodCall rr rm rargs) m args) =
        .error (.attributeError "MethodCall object has no attribute declared_type")) := by
  constructor
  · intro r m args dt meth hdt hmeth
    simp [static_type, hdt, hmeth]
  · intro rr rm m rargs args
    simp [static_type, Expression.declared_type_attr, Expression.class_name]

/-- C1 witness: `p.getB()` with `p : A` has static type `B`, by looking
`getB` up on the declared type `A`. -/
theorem methodCall_static_type_uses_declared_type_witness :
    static_type (.methodCall (.variable "p" TA) "getB" []) = .ok TB :=
  methodCall_static_type_uses_declared_type.1
    (.variable "p" TA) "getB" [] TA ⟨[], TB⟩ rfl rfl

/-- C2 counterexample: the receiver subtree `p.getB("3")` of
`p.getB("3").getX()` fails `check_types` (arity error), yet `check_types`
on the outer call succeeds — the receiver expression is not recursively
validated. -/
theorem methodCall_check_types_ignores_receiver_errors :
    check_types outerOK = .ok () ∧
    check_types recvBad =
      .error (.typeError "Wrong number of arguments for A.getB(): expected 0, got 1") :=
  ⟨rfl, rfl⟩

/-- C2 (amended): `MethodCall.check_types()` recursively validates the
argument expressions but not the receiver expression: even when
`check_types` on the receiver fails, the call's own `check_types` succeeds,
provided the receiver's static type computes to a reference type whose
method lookup and argument check pass. -/
theorem methodCall_check_types_skips_receiver
    (r : Expression) (m : String) (args : List Expression) (err : JavaError)
    (T : JType) (meth : MethodSig) (actual : List JType)
    (_hrecv : check_types r = .error err)
    (hargs : check_types_list args = .ok ())
    (hT : static_type r = .ok T)
    (hsub : T.is_subtype_of JType.object = true)
    (hmeth : T.method_named m = .ok meth)
    (hactual : static_type_list args = .ok actual)
    (hok : check_arguments meth.argument_types actual
      (T.name ++ "." ++ m ++ "()") = .ok ()) :
    check_types (.methodCall r m args) = .ok () := by
  rw [check_types]
  simp [hargs, hT, hsub, hmeth, hactual, hok]

/-- C2 witness: the amended statement applied to `p.getB("3").getX()`,
whose receiver `p.getB("3")` fails with an arity error. -/
theorem methodCall_check_types_skips_receiver_witness :
    check_types outerOK = .ok () :=
  methodCall_check_types_skips_receiver recvBad "getX" []
    (.typeError "Wrong number of arguments for A.getB(): expected 0, got 1")
    TB ⟨[], intT⟩ [] rfl rfl rfl rfl rfl rfl rfl

/-- C3: when the arguments all pass and the receiver's static type is not a
subtype of `Type.object`, `MethodCall.check_types()` fails with the
`JavaTypeError` "Type ... does not have methods" — whatever methods the
receiver type does or does not declare, so the rejection precedes any
method lookup. -/
theorem methodCall_rejects_non_reference_receiver
    (r : Expression) (m : String) (args : List Expression) (T : JType)
    (hargs : check_types_list args = .ok ())
    (hT : static_type r = .ok T)
    (hsub : T.is_subtype_of JType.object = false) :
    check_types (.methodCall r m args) =
      .error (.typeError ("Type " ++ T.name ++ " does not have methods")) := by
  rw [check_types]
  simp [hargs, hT, hsub]

/-- C3 witness: calling a method on the null literal fails with
"Type null does not have methods". -/
theorem methodCall_rejects_non_reference_receiver_witness :
    check_types (.methodCall .nullLiteral "m" []) =
      .error (.typeError "Type null does not have methods") :=
  methodCall_rejects_non_reference_receiver .nullLiteral "m" [] JType.null rfl rfl rfl

/-- C4: a "no such member" failure from the Type lattice — method lookup in
`MethodCall.check_types()`, constructor lookup in
`ConstructorCall.check_types()` — propagates to the caller as exactly the
same error value, not rewrapped into the `typeError` kind. -/
theorem member_lookup_failure_propagates :
    (∀ (r : Expression) (m : String) (args : List Expression)
      (T : JType) (err : JavaError),
      check_types_list args = .ok () →
      static_type r = .ok T →
      T.is_subtype_of JType.object = true →
      T.method_named m = .error err →
      check_types (.methodCall r m args) = .error err) ∧
    (∀ (t : JType) (args : List Expression) (err : JavaError),
      check_types_list args = .ok () →
      t.is_instantiable = true →
      t.constructor = .error err →
      check_types (.constructorCall t args) = .error err) := by
  constructor
  · intro r m args T err hargs hT hsub hmeth
    rw [check_types]
    simp [hargs, hT, hsub, hmeth]
  · intro t args err hargs hinst hctor
    rw [check_types]
    simp [hargs, hinst, hctor]

/-- C4 witness: `p.nope()` with `p : A` surfaces the lattice's
`noSuchMethod` failure unchanged, and `new B()` (where `B` has no
constructor) surfaces the lattice's `noSuchConstructor` failure unchanged. -/
theorem member_lookup_failure_propagates_witness :
    check_types (.methodCall (.variable "p" TA) "nope" []) =
      .error (.noSuchMethod "A has no method named nope") ∧
    check_types (.constructorCall TB []) =
      .error (.noSuchConstructor "B has no constructor") :=
  ⟨member_lookup_failure_propagates.1 (.variable "p" TA) "nope" [] TA
      (.noSuchMethod "A has no method named nope") rfl rfl rfl rfl,
    member_lookup_failure_propagates.2 TB []
      (.noSuchConstructor "B has no constructor") rfl rfl rfl⟩

/-- C5: on an arity mismatch, `check_arguments` fails with the
`JavaTypeError` reporting the call label, the expected count and the actual
count — for all type lists, however (in)compatible their pairs, so the
arity check precedes any pairwise comparison. -/
theorem check_arguments_arity_mismatch
    (expected_types actual_types : List JType) (call_name : String)
    (hlen : expected_types.length ≠ actual_types.length) :
    check_arguments expected_types actual_types call_name =
      .error (.typeError ("Wrong number of arguments for " ++ call_name ++
        ": expected " ++ toString expected_types.length ++
        ", got " ++ toString actual_types.length)) := by
  simp [check_arguments, hlen]

/-- C5 witness: one expected parameter against zero arguments. -/
theorem check_arguments_arity_mismatch_witness :
    check_arguments [intT] [] "f()" =
      .error (.typeError "Wrong number of arguments for f(): expected 1, got 0") :=
  check_arguments_arity_mismatch [intT] [] "f()" (by decide)

/-- The pairwise loop succeeds when every pair is compatible. -/
lemma check_argument_pairs_all_ok (pairs : List (JType × JType))
    (expected_types actual_types : List JType) (call_name : String)
    (h : ∀ p ∈ pairs, p.1.is_supertype_of p.2 = true) :
    check_argument_pairs pairs expected_types actual_types call_name = .ok () := by
  induction pairs with
  | nil => rfl
  | cons p rest ih =>
    obtain ⟨e, a⟩ := p
    have hp : e.is_supertype_of a = true := h (e, a) (by simp)
    rw [check_argument_pairs, hp]
    simp only [if_true]
    exact ih (fun q hq => h q (List.mem_cons_of_mem _ hq))

/-- The pairwise loop stops at the first incompatible pair and reports the
full expected and actual name lists. -/
lemma check_argument_pairs_first_failure (pre : List (JType × JType))
    (e a : JType) (post : List (JType × JType))
    (expected_types actual_types : List JType) (call_name : String)
    (hpre : ∀ p ∈ pre, p.1.is_supertype_of p.2 = true)
    (hfail : e.is_supertype_of a = false) :
    check_argument_pairs (pre ++ (e, a) :: post) expected_types actual_types call_name =
      .error (.typeError (call_name ++ " expects arguments of type " ++
        names expected_types ++ ", but got " ++ names actual_types)) := by
  induction pre with
  | nil => rw [List.nil_append, check_argument_pairs, hfail]; simp
  | cons p rest ih =>
    obtain ⟨pe, pa⟩ := p
    have hp : pe.is_supertype_of pa = true := hpre (pe, pa) (by simp)
    rw [List.cons_append, check_argument_pairs, hp]
    simp only [if_true]
    exact ih (fun q hq => hpre q (List.mem_cons_of_mem _ hq))

/-- C6: with equal-length lists, `check_arguments` compares the pairs of
`zip expected actual` left to right: if every pair's expected type is a
supertype of its actual type it returns normally, and at the first pair
where that fails (all earlier pairs compatible) it fails — whatever comes
after that pair — with the `JavaTypeError` naming the call label and the
full expected and actual type-name sequences. -/
theorem check_arguments_pairwise :
    (∀ (expected_types actual_types : List JType) (call_name : String),
      expected_types.length = actual_types.length →
      (∀ p ∈ expected_types.zip actual_types, p.1.is_supertype_of p.2 = true) →
      check_arguments expected_types actual_types call_name = .ok ()) ∧
    (∀ (expected_types actual_types : List JType) (call_name : String)
      (pre : List (JType × JType)) (e a : JType) (post : List (JType × JType)),
      expected_types.length = actual_types.length →
      expected_types.zip actual_types = pre ++ (e, a) :: post →
      (∀ p ∈ pre, p.1.is_supertype_of p.2 = true) →
      e.is_supertype_of a = false →
      check_arguments expected_types actual_types call_name =
        .error (.typeError (call_name ++ " expects arguments of type " ++
          names expected_types ++ ", but got " ++ names actual_types))) := by
  constructor
  · intro expected_types actual_types call_name hlen hall
    rw [check_arguments]
    simp only [hlen, ne_eq, not_true_eq_false, if_false]
    exact check_argument_pairs_all_ok _ _ _ _ hall
  · intro expected_types actual_types call_name pre e a post hlen hzip hpre hfail
    rw [check_arguments]
    simp only [hlen, ne_eq, not_true_eq_false, if_false]
    rw [hzip]
    exact check_argument_pairs_first_failure pre e a post _ _ _ hpre hfail

/-- C6 witness: `(int)` against `(int)` passes; `(int, B)` against
`(int, A)` fails at the second pair, listing both full sequences. -/
theorem check_arguments_pairwise_witness :
    check_arguments [intT] [intT] "f()" = .ok () ∧
    check_arguments [intT, TB] [intT, TA] "f()" =
      .error (.typeError "f() expects arguments of type (int, B), but got (int, A)") :=
  ⟨check_arguments_pairwise.1 [intT] [intT] "f()" rfl (by decide),
    check_arguments_pairwise.2 [intT, TB] [intT, TA] "f()"
      [(intT, intT)] TB TA [] rfl rfl (by decide) rfl⟩

/-- C7: when the arguments all pass and the instantiated type is not
instantiable, `ConstructorCall.check_types()` fails with the `JavaTypeError`
"Type ... is not instantiable" — no hypothesis relates the arguments to any
constructor signature, so this holds even when they would match. -/
theorem constructorCall_rejects_non_instantiable
    (t : JType) (args : List Expression)
    (hargs : check_types_list args = .ok ())
    (hinst : t.is_instantiable = false) :
    check_types (.constructorCall t args) =
      .error (.typeError ("Type " ++ t.name ++ " is not instantiable")) := by
  rw [check_types]
  simp [hargs, hinst]

/-- C7 witness: `new Abstract()` fails with "Type Abstract is not
instantiable". -/
theorem constructorCall_rejects_non_instantiable_witness :
    check_types (.constructorCall TAbstract []) =
      .error (.typeError "Type Abstract is not instantiable") :=
  constructorCall_rejects_non_instantiable TAbstract [] rfl rfl

/-- C8: `NullLiteral.static_type()` returns `Type.null`, its stored `value`
field is the null representation "null" and its stored `type` field is
`Type.null` (its `__init__` takes no type argument at all, so no supplied
type can influence this). -/
theorem nullLiteral_static_type_and_fields :
    static_type .nullLiteral = .ok JType.null ∧
    Expression.value_field .nullLiteral = some "null" ∧
    Expression.type_field .nullLiteral = some JType.null :=
  ⟨rfl, rfl, rfl⟩

mutual

/-- The state-passing rendering agrees with the plain one and returns the
node unchanged: no `check_types` body assigns to any attribute. -/
lemma check_types_st_eq : ∀ (e : Expression),
    check_types_st e = Except.map (fun u => (u, e)) (check_types e)
  | .variable _ _ => rfl
  | .literal _ _ => rfl
  | .nullLiteral => rfl
  | .methodCall receiver method_name args => by
    rw [check_types_st, check_types, check_types_st_list_eq args]
    cases check_types_list args with
    | error err => rfl
    | ok u =>
      simp only [Except.map]
      cases static_type receiver with
      | error err => rfl
      | ok receiver_type =>
        cases hsub : receiver_type.is_subtype_of JType.object with
        | false => simp [hsub]
        | true =>
          simp only [hsub, not_true_eq_false, if_false, Bool.not_true,
            Bool.false_eq_true]
          cases receiver_type.method_named method_name with
          | error err => rfl
          | ok method =>
            cases static_type_list args with
            | error err => rfl
            | ok actual_types =>
              dsimp only
              cases check_arguments method.argument_types actual_types
                  (receiver_type.name ++ "." ++ method_name ++ "()") with
              | error err => rfl
              | ok v => rfl
  | .constructorCall instantiated_type args => by
    rw [check_types_st, check_types, check_types_st_list_eq args]
    cases check_types_list args with
    | error err => rfl
    | ok u =>
      simp only [Except.map]
      cases hinst : instantiated_type.is_instantiable with
      | false => simp [hinst]
      | true =>
        simp only [hinst, not_true_eq_false, if_false, Bool.not_true,
          Bool.false_eq_true]
        cases instantiated_type.constructor with
        | error err => rfl
        | ok ctor_argument_types =>
          cases static_type_list args with
          | error err => rfl
          | ok actual_types =>
            dsimp only
            cases check_arguments ctor_argument_types actual_types
                (instantiated_type.name ++ " constructor") with
            | error err => rfl
            | ok v => rfl

/-- The state-passing argument loop agrees with the plain one and returns
the argument list unchanged. -/
lemma check_types_st_list_eq : ∀ (l : List Expression),
    check_types_st_list l = Except.map (fun _ => l) (check_types_list l)
  | [] => rfl
  | arg :: rest => by
    rw [check_types_st_list, check_types_list, check_types_st_eq arg,
      check_types_st_list_eq rest]
    cases check_types arg with
    | error err => rfl
    | ok u =>
      simp only [Except.map]
      cases check_types_list rest with
      | error err => rfl
      | ok v => rfl

end

/-- C9: `check_types` is effect-free and idempotent.  In the state-passing
rendering (which returns the tree as the call leaves it), a successful call
returns the tree unchanged, a second call on that tree succeeds with the
same answer, and the plain `check_types` reports no error. -/
theorem check_types_idempotent_and_pure
    (e e' : Expression) (u : Unit)
    (h : check_types_st e = .ok (u, e')) :
    e' = e ∧ check_types_st e' = .ok (u, e') ∧ check_types e = .ok () := by
  cases u
  rw [check_types_st_eq] at h
  cases hc : check_types e with
  | error err => rw [hc] at h; exact absurd h (by simp [Except.map])
  | ok v =>
    cases v
    rw [hc] at h
    simp only [Except.map, Except.ok.injEq, Prod.mk.injEq, true_and] at h
    subst h
    exact ⟨rfl, by rw [check_types_st_eq, hc]; rfl, rfl⟩

/-- C9 witness: the well-typed tree `p.getB("3").getX()` checks cleanly,
comes back unchanged, and checks cleanly again. -/
theorem check_types_idempotent_and_pure_witness :
    outerOK = outerOK ∧ check_types_st outerOK = .ok ((), outerOK) ∧
      check_types outerOK = .ok () :=
  check_types_idempotent_and_pure outerOK outerOK () rfl

/-- C10 counterexample: `new Abstract(new A("3"))` has a non-instantiable
instantiated type, yet `check_types` raises the argument's arity error, not
the "is not instantiable" type error. -/
theorem constructorCall_bad_arg_preempts_instantiable_error :
    check_types nonInstWithBadArg =
      .error (.typeError "Wrong number of arguments for A constructor: expected 2, got 1") ∧
    JavaError.typeError "Wrong number of arguments for A constructor: expected 2, got 1" ≠
      JavaError.typeError "Type Abstract is not instantiable" :=
  ⟨rfl, by decide⟩

/-- C10 (amended): when the arguments all pass, `check_types` on a
`ConstructorCall` of a non-instantiable type raises the "is not
instantiable" type error without ever reading the type's `constructor`
property: the result is the same for every value of the constructor field,
including the absent one whose lookup would fail, so a constructor-lookup
failure on the non-instantiable type itself can never surface. -/
theorem constructorCall_non_instantiable_ignores_constructor
    (n : String) (s : List String) (ms : List (String × List JType × JType))
    (c c' : Option (List JType)) (args : List Expression)
    (hargs : check_types_list args = .ok ()) :
    check_types (.constructorCall (.mk n s false ms c) args) =
      check_types (.constructorCall (.mk n s false ms c') args) ∧
    check_types (.constructorCall (.mk n s false ms c) args) =
      .error (.typeError ("Type " ++ n ++ " is not instantiable")) := by
  constructor
  · rw [check_types, check_types]
    simp [hargs, JType.is_instantiable, JType.name]
  · rw [check_types]
    simp [hargs, JType.is_instantiable, JType.name]

/-- C10 witness: `new Abstract()` gives the same "is not instantiable"
error whether the `Abstract` type records no constructor or an empty one. -/
theorem constructorCall_non_instantiable_ignores_constructor_witness :
    check_types (.constructorCall (.mk "Abstract" ["Abstract", "Object"] false [] none) []) =
      check_types (.constructorCall (.mk "Abstract" ["Abstract", "Object"] false [] (some [])) []) ∧
    check_types (.constructorCall (.mk "Abstract" ["Abstract", "Object"] false [] none) []) =
      .error (.typeError "Type Abstract is not instantiable") :=
  constructorCall_non_instantiable_ignores_constructor
    "Abstract" ["Abstract", "Object"] [] none (some []) [] rfl

end JavaTC
